import Mathlib

/-!
Shallow embedding of the 6502-style CPU core in `src/cpu.rs` of the
nes_emulator repository.  Machine integers (`u8`, `u16`) are modelled as
`Nat` with explicit `% 256` / `% 0x10000` at every point where the Rust
source performs a wrapping operation (`wrapping_add`, `as u8`, `as u16`
truncation).  Rust's plain `+` on fixed-width integers is a checked
addition (it panics on overflow under the default debug/test profile the
repository's own test-suite uses), so operations whose internal additions
can overflow return `Option`, with `none` standing for the panic.
Memory (`[u8; 0x10000]`) is modelled as a total function `Nat → Nat`;
indexing with a `u16`-ranged address never goes out of bounds.
-/

namespace NesCpu

/-- Status flag masks, cpu.rs lines 16-23. -/
def STATUS_CARRY : Nat := 0x01

/-- cpu.rs line 17. -/
def STATUS_ZERO : Nat := 0x02

/-- cpu.rs line 18. -/
def STATUS_INTERRUPT_DISABLE : Nat := 0x04

/-- cpu.rs line 19. -/
def STATUS_DECIMAL_MODE : Nat := 0x08

/-- cpu.rs line 20. -/
def STATUS_BREAK : Nat := 0x10

/-- cpu.rs line 21. -/
def STATUS_BREAK2 : Nat := 0x20

/-- cpu.rs line 22. -/
def STATUS_OVERFLOW : Nat := 0x40

/-- cpu.rs line 23. -/
def STATUS_NEGATIVE : Nat := 0x80

/-- Addressing modes, cpu.rs lines 25-39. -/
inductive AddressingMode where
  | Immediate
  | ZeroPage
  | ZeroPage_X
  | ZeroPage_Y
  | Absolute
  | Absolute_X
  | Absolute_Y
  | Indirect_X
  | Indirect_Y
  | NoneAddressing
  | Relative
deriving DecidableEq, Repr

/-- CPU state, cpu.rs lines 70-77.  Registers hold byte values (< 256),
the program counter a 16-bit value, and `memory` maps each address in
`0 .. 0xFFFF` to the byte stored there. -/
structure CPU where
  register_a : Nat
  register_x : Nat
  register_y : Nat
  status : Nat
  program_counter : Nat
  memory : Nat → Nat

/-- `CPU::new`, cpu.rs lines 80-89: all registers zero, memory zeroed. -/
def CPU.new : CPU :=
  { register_a := 0, register_x := 0, register_y := 0, status := 0,
    program_counter := 0, memory := fun _ => 0 }

/-- `mem_read`, cpu.rs lines 149-151 (and the identical trait impl at
lines 61-63): `self.memory[addr as usize]`. -/
def CPU.mem_read (c : CPU) (addr : Nat) : Nat :=
  c.memory addr

/-- `mem_write`, cpu.rs lines 153-155 (and lines 65-67):
`self.memory[addr as usize] = data`. -/
def CPU.mem_write (c : CPU) (addr data : Nat) : CPU :=
  { c with memory := fun a => if a = addr then data else c.memory a }

/-- `mem_read_u16`, cpu.rs lines 157-161 (and the identical trait default
at lines 46-50): `lo = read(pos); hi = read(pos + 1); (hi << 8) | lo`.
The `pos + 1` is Rust's checked `u16` addition: at `pos = 0xFFFF` it
overflows (panics), modelled as `none`. -/
def CPU.mem_read_u16 (c : CPU) (pos : Nat) : Option Nat :=
  if pos + 1 < 0x10000 then
    some ((c.mem_read (pos + 1)) <<< 8 ||| c.mem_read pos)
  else
    none

/-- `mem_write_u16`, cpu.rs lines 163-168 (and lines 52-57):
`hi = (data >> 8) as u8; lo = (data & 0xff) as u8; write(pos, lo);
write(pos + 1, hi)`.  The `pos + 1` overflows at `pos = 0xFFFF`
(in the source the low-byte write has already happened when the panic
fires; the failure itself is what `none` records). -/
def CPU.mem_write_u16 (c : CPU) (pos data : Nat) : Option CPU :=
  let hi := (data >>> 8) % 256
  let lo := data &&& 0xff
  if pos + 1 < 0x10000 then
    some ((c.mem_write pos lo).mem_write (pos + 1) hi)
  else
    none

/-- `get_operand_address`, cpu.rs lines 91-147.  `u8::wrapping_add` is
`(· + ·) % 256`, `u16::wrapping_add` is `(· + ·) % 0x10000`; the
`panic!` arms for the placeholder modes and the checked `pos + 1` inside
`mem_read_u16` (Absolute forms) are `none`. -/
def CPU.get_operand_address (c : CPU) (mode : AddressingMode) : Option Nat :=
  match mode with
  | .Immediate => some c.program_counter
  | .ZeroPage => some (c.mem_read c.program_counter)
  | .Absolute => c.mem_read_u16 c.program_counter
  | .ZeroPage_X =>
      some ((c.mem_read c.program_counter + c.register_x) % 256)
  | .ZeroPage_Y =>
      some ((c.mem_read c.program_counter + c.register_y) % 256)
  | .Absolute_X =>
      (c.mem_read_u16 c.program_counter).map
        (fun base => (base + c.register_x) % 0x10000)
  | .Absolute_Y =>
      (c.mem_read_u16 c.program_counter).map
        (fun base => (base + c.register_y) % 0x10000)
  | .Indirect_X =>
      let base := c.mem_read c.program_counter
      let ptr := (base + c.register_x) % 256
      let lo := c.mem_read ptr
      let hi := c.mem_read ((ptr + 1) % 256)
      some (hi <<< 8 ||| lo)
  | .Indirect_Y =>
      let base := c.mem_read c.program_counter
      let lo := c.mem_read base
      let hi := c.mem_read ((base + 1) % 256)
      some (((hi <<< 8 ||| lo) + c.register_y) % 0x10000)
  | .NoneAddressing => none
  | .Relative => none

/-- `load`, cpu.rs lines 170-173:
`self.memory[0x8000..(0x8000 + program.len())].copy_from_slice(&program)`
followed by `mem_write_u16(0xFFFC, 0x8000)`.  The slice-index operation
checks the range before any byte is copied and panics when
`0x8000 + program.len() > 0x10000`, modelled as `none`. -/
def CPU.load (c : CPU) (program : List Nat) : Option CPU :=
  if program.length ≤ 0x8000 then
    let copied : CPU :=
      { c with memory := fun a =>
          if 0x8000 ≤ a ∧ a < 0x8000 + program.length then
            program.getD (a - 0x8000) 0
          else
            c.memory a }
    copied.mem_write_u16 0xFFFC 0x8000
  else
    none

/-- `reset`, cpu.rs lines 181-188: zero accumulator, index-X and status,
then `program_counter = mem_read_u16(0xFFFC)`.  That read is at the
constant `0xFFFC`, whose `pos + 1` never overflows, so the `Option` is
always `some`; `getD 0` only extracts it. -/
def CPU.reset (c : CPU) : CPU :=
  { c with register_a := 0, register_x := 0, status := 0,
           program_counter := (c.mem_read_u16 0xFFFC).getD 0 }

/-- `update_zero_and_negative_flags`, cpu.rs lines 239-251.  Rust's
`!STATUS_ZERO` on `u8` is `0xFD`; the negative-clear branch uses the
literal mask `0b0111_1111` from the source. -/
def CPU.update_zero_and_negative_flags (c : CPU) (result : Nat) : CPU :=
  let s1 := if result = 0 then c.status ||| STATUS_ZERO else c.status &&& 0xFD
  let s2 := if result &&& STATUS_NEGATIVE ≠ 0 then s1 ||| STATUS_NEGATIVE
            else s1 &&& 0x7F
  { c with status := s2 }

/-- `lda`, cpu.rs lines 190-196. -/
def CPU.lda (c : CPU) (mode : AddressingMode) : Option CPU :=
  (c.get_operand_address mode).map fun addr =>
    let value := c.mem_read addr
    ({ c with register_a := value } : CPU).update_zero_and_negative_flags value

/-- `sta`, cpu.rs lines 198-202. -/
def CPU.sta (c : CPU) (mode : AddressingMode) : Option CPU :=
  (c.get_operand_address mode).map fun addr => c.mem_write addr c.register_a

/-- `adc`, cpu.rs lines 204-226.  `overflowing_add` on `u8` values `x`,
`y` is `((x + y) % 256, 256 ≤ x + y)`; the carry update, the overflow
update (computed against the pre-update accumulator), the accumulator
write and the Zero/Negative update follow the source's order.  Rust's
`!STATUS_CARRY` is `0xFE` and `!STATUS_OVERFLOW` is `0xBF` on `u8`. -/
def CPU.adc (c : CPU) (mode : AddressingMode) : Option CPU :=
  (c.get_operand_address mode).map fun addr =>
    let value := c.mem_read addr
    let carry_flag := c.status &&& STATUS_CARRY
    let rhs := (value + carry_flag) % 256
    let result := (c.register_a + rhs) % 256
    let s1 := if 256 ≤ value + carry_flag ∨ 256 ≤ c.register_a + rhs then
                c.status ||| STATUS_CARRY
              else
                c.status &&& 0xFE
    let s2 := if (result ^^^ value) &&& (result ^^^ c.register_a) &&&
                  STATUS_NEGATIVE ≠ 0 then
                s1 ||| STATUS_OVERFLOW
              else
                s1 &&& 0xBF
    ({ c with status := s2, register_a := result } : CPU).update_zero_and_negative_flags result

/-- `tax`, cpu.rs lines 228-231. -/
def CPU.tax (c : CPU) : CPU :=
  ({ c with register_x := c.register_a } : CPU).update_zero_and_negative_flags c.register_a

/-- `inx`, cpu.rs lines 233-237: `register_x.wrapping_add(1)`. -/
def CPU.inx (c : CPU) : CPU :=
  let x := (c.register_x + 1) % 256
  ({ c with register_x := x } : CPU).update_zero_and_negative_flags x

/-- Opcode metadata record: instruction length in bytes and addressing
mode (the mnemonic string is never consulted by `run`). -/
structure OpCode where
  len : Nat
  mode : AddressingMode
deriving DecidableEq, Repr

/-- Modelled from the spec: the opcode metadata table `OPCODES_MAP` lives
in the `opcodes` module of this repository, which is not under `src/`;
only `src/cpu.rs` is available.  Per spec §1/§3 it is an immutable map
from opcode byte to (mnemonic, length, addressing mode).  The entries
below cover the opcode bytes the dispatcher in cpu.rs handles, with the
standard 6502 lengths and modes that the spec's §8 test programs imply
(e.g. `[0xA9, imm, 0x00]` — LDA immediate is two bytes).  Bytes outside
the documented subset are absent (`none`). -/
def OPCODES_MAP : Nat → Option OpCode := fun code =>
  match code with
  | 0x00 => some ⟨1, .NoneAddressing⟩
  | 0xaa => some ⟨1, .NoneAddressing⟩
  | 0xe8 => some ⟨1, .NoneAddressing⟩
  | 0xa9 => some ⟨2, .Immediate⟩
  | 0xa5 => some ⟨2, .ZeroPage⟩
  | 0xb5 => some ⟨2, .ZeroPage_X⟩
  | 0xad => some ⟨3, .Absolute⟩
  | 0xbd => some ⟨3, .Absolute_X⟩
  | 0xb9 => some ⟨3, .Absolute_Y⟩
  | 0xa1 => some ⟨2, .Indirect_X⟩
  | 0xb1 => some ⟨2, .Indirect_Y⟩
  | 0x85 => some ⟨2, .ZeroPage⟩
  | 0x95 => some ⟨2, .ZeroPage_X⟩
  | 0x8d => some ⟨3, .Absolute⟩
  | 0x9d => some ⟨3, .Absolute_X⟩
  | 0x99 => some ⟨3, .Absolute_Y⟩
  | 0x81 => some ⟨2, .Indirect_X⟩
  | 0x91 => some ⟨2, .Indirect_Y⟩
  | 0x69 => some ⟨2, .Immediate⟩
  | 0x65 => some ⟨2, .ZeroPage⟩
  | 0x75 => some ⟨2, .ZeroPage_X⟩
  | 0x6d => some ⟨3, .Absolute⟩
  | 0x7d => some ⟨3, .Absolute_X⟩
  | 0x79 => some ⟨3, .Absolute_Y⟩
  | 0x61 => some ⟨2, .Indirect_X⟩
  | 0x71 => some ⟨2, .Indirect_Y⟩
  | _ => none

/-- Fatal conditions of the run loop (cpu.rs lines 253-292): the
`expect` on a missing opcode, the `todo!()` arm for a recognized but
unhandled byte, and any other panic (checked `u16` addition overflow on
the program counter, or a panic inside a handler). -/
inductive RunError where
  | unrecognizedOpcode (code : Nat)
  | notImplemented (code : Nat)
  | panicked
deriving Repr

/-- Result of one iteration of the loop body in `run`. -/
inductive StepResult where
  | halted (c : CPU)
  | running (c : CPU)
  | fatal (e : RunError) (c : CPU)

/-- The `match code` dispatch in `run`, cpu.rs lines 269-286, for the
non-BRK arms.  Outer `none` is the `_ => todo!()` arm; an inner `none`
is a panic inside the selected handler. -/
def execHandled (code : Nat) (mode : AddressingMode) (c : CPU) :
    Option (Option CPU) :=
  match code with
  | 0xa9 | 0xa5 | 0xb5 | 0xad | 0xbd | 0xb9 | 0xa1 | 0xb1 => some (c.lda mode)
  | 0x85 | 0x95 | 0x8d | 0x9d | 0x99 | 0x81 | 0x91 => some (c.sta mode)
  | 0x69 | 0x65 | 0x75 | 0x6d | 0x7d | 0x79 | 0x61 | 0x71 => some (c.adc mode)
  | 0xaa => some (some c.tax)
  | 0xe8 => some (some c.inx)
  | _ => none

/-- One iteration of the loop in `run`, cpu.rs lines 256-291: fetch the
opcode byte at the program counter, advance the counter by one (checked
`u16` increment), record the counter, look the byte up in the metadata
map (`expect` → `unrecognizedOpcode`), dispatch (`0x00 => return`
halts), then advance the counter by `opcode.len - 1` exactly when the
handler left it unchanged (again a checked `u16` addition). -/
def runStep (c : CPU) : StepResult :=
  let code := c.mem_read c.program_counter
  if c.program_counter + 1 < 0x10000 then
    let c1 : CPU := { c with program_counter := c.program_counter + 1 }
    let program_counter_state := c1.program_counter
    match OPCODES_MAP code with
    | none => .fatal (.unrecognizedOpcode code) c1
    | some opcode =>
      if code = 0x00 then
        .halted c1
      else
        match execHandled code opcode.mode c1 with
        | none => .fatal (.notImplemented code) c1
        | some none => .fatal .panicked c1
        | some (some c2) =>
          if program_counter_state = c2.program_counter then
            if c2.program_counter + (opcode.len - 1) < 0x10000 then
              .running { c2 with
                program_counter := c2.program_counter + (opcode.len - 1) }
            else
              .fatal .panicked c2
          else
            .running c2
  else
    .fatal .panicked c

/-- Overall result of `run`, cpu.rs lines 253-292, under a fuel bound
(the Rust loop has no built-in bound; `outOfFuel` only marks fuel
exhaustion of the model). -/
inductive RunResult where
  | halted (c : CPU)
  | fatal (e : RunError) (c : CPU)
  | outOfFuel (c : CPU)

/-- `run`, cpu.rs lines 253-292, iterating `runStep` under fuel. -/
def run : Nat → CPU → RunResult
  | 0, c => .outOfFuel c
  | fuel + 1, c =>
    match runStep c with
    | .halted c' => .halted c'
    | .fatal e c' => .fatal e c'
    | .running c' => run fuel c'

/-!
Helper lemmas about status-bit manipulation, shared by the claim
theorems below.
-/

/-- A byte ANDed with the sign mask is nonzero exactly when bit 7 is set. -/
theorem and128_testBit (v : Nat) :
    (v &&& STATUS_NEGATIVE ≠ 0) ↔ (v.testBit 7 = true) := by
  simp only [STATUS_NEGATIVE]
  rw [show (128 : Nat) = 2 ^ 7 from rfl, Nat.and_two_pow]
  cases h : v.testBit 7 <;> simp

/-- Bit-level description of `update_zero_and_negative_flags`: bit 1
(Zero) becomes `v = 0`, bit 7 (Negative) becomes bit 7 of `v`, and bits
0, 2, 3, 4, 5, 6 of the status byte are preserved. -/
theorem update_flags_status_bits (c : CPU) (v : Nat) :
    ((c.update_zero_and_negative_flags v).status.testBit 1 = decide (v = 0)) ∧
    ((c.update_zero_and_negative_flags v).status.testBit 7 = v.testBit 7) ∧
    ((c.update_zero_and_negative_flags v).status.testBit 0 = c.status.testBit 0) ∧
    ((c.update_zero_and_negative_flags v).status.testBit 2 = c.status.testBit 2) ∧
    ((c.update_zero_and_negative_flags v).status.testBit 3 = c.status.testBit 3) ∧
    ((c.update_zero_and_negative_flags v).status.testBit 4 = c.status.testBit 4) ∧
    ((c.update_zero_and_negative_flags v).status.testBit 5 = c.status.testBit 5) ∧
    ((c.update_zero_and_negative_flags v).status.testBit 6 = c.status.testBit 6) := by
  unfold CPU.update_zero_and_negative_flags
  simp only [STATUS_ZERO]
  by_cases hz : v = 0
  · subst hz
    have hneg : ¬((0 : Nat) &&& STATUS_NEGATIVE ≠ 0) := by simp [STATUS_NEGATIVE]
    simp only [if_neg hneg, Nat.zero_testBit, eq_self_iff_true, if_true, decide_True]
    refine ⟨?_, ?_, ?_, ?_, ?_, ?_, ?_, ?_⟩ <;>
      simp only [Nat.testBit_lor, Nat.testBit_land] <;>
      first
        | decide
        | (cases _h : c.status.testBit 0 <;> decide)
        | (cases _h : c.status.testBit 1 <;> decide)
        | (cases _h : c.status.testBit 2 <;> decide)
        | (cases _h : c.status.testBit 3 <;> decide)
        | (cases _h : c.status.testBit 4 <;> decide)
        | (cases _h : c.status.testBit 5 <;> decide)
        | (cases _h : c.status.testBit 6 <;> decide)
        | (cases _h : c.status.testBit 7 <;> decide)
  · by_cases hneg : v &&& STATUS_NEGATIVE ≠ 0
    · have h7 : v.testBit 7 = true := (and128_testBit v).mp hneg
      simp only [if_pos hneg, if_neg hz, h7, decide_eq_false hz]
      refine ⟨?_, ?_, ?_, ?_, ?_, ?_, ?_, ?_⟩ <;>
        simp only [Nat.testBit_lor, Nat.testBit_land] <;>
        first
          | decide
          | (cases _h : c.status.testBit 0 <;> decide)
          | (cases _h : c.status.testBit 1 <;> decide)
          | (cases _h : c.status.testBit 2 <;> decide)
          | (cases _h : c.status.testBit 3 <;> decide)
          | (cases _h : c.status.testBit 4 <;> decide)
          | (cases _h : c.status.testBit 5 <;> decide)
          | (cases _h : c.status.testBit 6 <;> decide)
          | (cases _h : c.status.testBit 7 <;> decide)
    · have h7 : v.testBit 7 = false := by
        cases hb : v.testBit 7
        · rfl
        · exact absurd ((and128_testBit v).mpr hb) hneg
      simp only [if_neg hneg, if_neg hz, h7, decide_eq_false hz]
      refine ⟨?_, ?_, ?_, ?_, ?_, ?_, ?_, ?_⟩ <;>
        simp only [Nat.testBit_lor, Nat.testBit_land] <;>
        first
          | decide
          | (cases _h : c.status.testBit 0 <;> decide)
          | (cases _h : c.status.testBit 1 <;> decide)
          | (cases _h : c.status.testBit 2 <;> decide)
          | (cases _h : c.status.testBit 3 <;> decide)
          | (cases _h : c.status.testBit 4 <;> decide)
          | (cases _h : c.status.testBit 5 <;> decide)
          | (cases _h : c.status.testBit 6 <;> decide)
          | (cases _h : c.status.testBit 7 <;> decide)

/-- Zero-flag equation of `update_zero_and_negative_flags`. -/
theorem update_flags_testBit1 (c : CPU) (v : Nat) :
    (c.update_zero_and_negative_flags v).status.testBit 1 = decide (v = 0) :=
  (update_flags_status_bits c v).1

/-- Negative-flag equation of `update_zero_and_negative_flags`. -/
theorem update_flags_testBit7 (c : CPU) (v : Nat) :
    (c.update_zero_and_negative_flags v).status.testBit 7 = v.testBit 7 :=
  (update_flags_status_bits c v).2.1

/-- Carry bit is untouched by `update_zero_and_negative_flags`. -/
theorem update_flags_testBit0 (c : CPU) (v : Nat) :
    (c.update_zero_and_negative_flags v).status.testBit 0 = c.status.testBit 0 :=
  (update_flags_status_bits c v).2.2.1

/-- Interrupt-disable bit is untouched by `update_zero_and_negative_flags`. -/
theorem update_flags_testBit2 (c : CPU) (v : Nat) :
    (c.update_zero_and_negative_flags v).status.testBit 2 = c.status.testBit 2 :=
  (update_flags_status_bits c v).2.2.2.1

/-- Decimal-mode bit is untouched by `update_zero_and_negative_flags`. -/
theorem update_flags_testBit3 (c : CPU) (v : Nat) :
    (c.update_zero_and_negative_flags v).status.testBit 3 = c.status.testBit 3 :=
  (update_flags_status_bits c v).2.2.2.2.1

/-- Break bit is untouched by `update_zero_and_negative_flags`. -/
theorem update_flags_testBit4 (c : CPU) (v : Nat) :
    (c.update_zero_and_negative_flags v).status.testBit 4 = c.status.testBit 4 :=
  (update_flags_status_bits c v).2.2.2.2.2.1

/-- Break2 bit is untouched by `update_zero_and_negative_flags`. -/
theorem update_flags_testBit5 (c : CPU) (v : Nat) :
    (c.update_zero_and_negative_flags v).status.testBit 5 = c.status.testBit 5 :=
  (update_flags_status_bits c v).2.2.2.2.2.2.1

/-- Overflow bit is untouched by `update_zero_and_negative_flags`. -/
theorem update_flags_testBit6 (c : CPU) (v : Nat) :
    (c.update_zero_and_negative_flags v).status.testBit 6 = c.status.testBit 6 :=
  (update_flags_status_bits c v).2.2.2.2.2.2.2

/-- C1: ADC computes `rhs = operand + carry-in` and
`result = accumulator + rhs` as 8-bit wrapping additions, sets Carry iff
either addition overflowed 8 bits, sets Overflow iff
`(result XOR operand) AND (result XOR old accumulator)` has bit 7 set,
writes `result` to the accumulator and recomputes Zero/Negative from it;
all four flag values are given by these formulas irrespective of their
previous values.  Registers X/Y, the program counter and memory are
untouched. -/
theorem claim_C1 (c : CPU) (mode : AddressingMode)
    (addr value carry_in rhs result : Nat)
    (haddr : c.get_operand_address mode = some addr)
    (hvalue : value = c.mem_read addr)
    (hcarry : carry_in = c.status &&& STATUS_CARRY)
    (hrhs : rhs = (value + carry_in) % 256)
    (hresult : result = (c.register_a + rhs) % 256) :
    ∃ c', c.adc mode = some c' ∧
      c'.register_a = result ∧
      (c'.status.testBit 0 = true ↔
        (256 ≤ value + carry_in ∨ 256 ≤ c.register_a + rhs)) ∧
      (c'.status.testBit 6 = true ↔
        ((result ^^^ value) &&& (result ^^^ c.register_a)).testBit 7 = true) ∧
      (c'.status.testBit 1 = true ↔ result = 0) ∧
      (c'.status.testBit 7 = result.testBit 7) ∧
      c'.register_x = c.register_x ∧ c'.register_y = c.register_y ∧
      c'.program_counter = c.program_counter ∧ c'.memory = c.memory := by
  subst hresult
  subst hrhs
  subst hcarry
  subst hvalue
  simp only [CPU.adc, haddr, Option.map_some']
  refine ⟨_, rfl, rfl, ?_, ?_, ?_, ?_, rfl, rfl, rfl, rfl⟩
  · rw [update_flags_testBit0]
    by_cases h1 : 256 ≤ c.mem_read addr + (c.status &&& STATUS_CARRY) ∨
        256 ≤ c.register_a + (c.mem_read addr + (c.status &&& STATUS_CARRY)) % 256
    · simp only [if_pos h1, iff_true_intro h1, if_true, iff_true]
      by_cases h2 : ((c.register_a + (c.mem_read addr + (c.status &&& STATUS_CARRY)) % 256) % 256
            ^^^ c.mem_read addr) &&&
          ((c.register_a + (c.mem_read addr + (c.status &&& STATUS_CARRY)) % 256) % 256
            ^^^ c.register_a) &&& STATUS_NEGATIVE ≠ 0
      · simp only [if_pos h2, if_true, Nat.testBit_lor, Nat.testBit_land]
        cases _h : c.status.testBit 0 <;> decide
      · simp only [if_neg h2, if_false, Nat.testBit_lor, Nat.testBit_land]
        cases _h : c.status.testBit 0 <;> decide
    · simp only [if_neg h1, iff_false_intro h1, if_false, iff_false]
      by_cases h2 : ((c.register_a + (c.mem_read addr + (c.status &&& STATUS_CARRY)) % 256) % 256
            ^^^ c.mem_read addr) &&&
          ((c.register_a + (c.mem_read addr + (c.status &&& STATUS_CARRY)) % 256) % 256
            ^^^ c.register_a) &&& STATUS_NEGATIVE ≠ 0
      · simp only [if_pos h2, if_true, Nat.testBit_lor, Nat.testBit_land]
        cases _h : c.status.testBit 0 <;> decide
      · simp only [if_neg h2, if_false, Nat.testBit_lor, Nat.testBit_land]
        cases _h : c.status.testBit 0 <;> decide
  · rw [update_flags_testBit6]
    by_cases h2 : ((c.register_a + (c.mem_read addr + (c.status &&& STATUS_CARRY)) % 256) % 256
          ^^^ c.mem_read addr) &&&
        ((c.register_a + (c.mem_read addr + (c.status &&& STATUS_CARRY)) % 256) % 256
          ^^^ c.register_a) &&& STATUS_NEGATIVE ≠ 0
    · have h2b := (and128_testBit _).mp h2
      simp only [if_pos h2, if_true, iff_true_intro h2b, iff_true]
      by_cases h1 : 256 ≤ c.mem_read addr + (c.status &&& STATUS_CARRY) ∨
          256 ≤ c.register_a + (c.mem_read addr + (c.status &&& STATUS_CARRY)) % 256
      · simp only [if_pos h1, if_true, Nat.testBit_lor, Nat.testBit_land]
        cases _h : c.status.testBit 6 <;> decide
      · simp only [if_neg h1, if_false, Nat.testBit_lor, Nat.testBit_land]
        cases _h : c.status.testBit 6 <;> decide
    · have h2b : (((c.register_a + (c.mem_read addr + (c.status &&& STATUS_CARRY)) % 256) % 256
            ^^^ c.mem_read addr) &&&
          ((c.register_a + (c.mem_read addr + (c.status &&& STATUS_CARRY)) % 256) % 256
            ^^^ c.register_a)).testBit 7 = false := by
        cases hb : (((c.register_a + (c.mem_read addr + (c.status &&& STATUS_CARRY)) % 256) % 256
            ^^^ c.mem_read addr) &&&
          ((c.register_a + (c.mem_read addr + (c.status &&& STATUS_CARRY)) % 256) % 256
            ^^^ c.register_a)).testBit 7
        · rfl
        · exact absurd ((and128_testBit _).mpr hb) h2
      simp only [if_neg h2, if_false, h2b, Bool.false_eq_true, iff_false]
      by_cases h1 : 256 ≤ c.mem_read addr + (c.status &&& STATUS_CARRY) ∨
          256 ≤ c.register_a + (c.mem_read addr + (c.status &&& STATUS_CARRY)) % 256
      · simp only [if_pos h1, if_true, Nat.testBit_lor, Nat.testBit_land]
        cases _h : c.status.testBit 6 <;> decide
      · simp only [if_neg h1, if_false, Nat.testBit_lor, Nat.testBit_land]
        cases _h : c.status.testBit 6 <;> decide
  · rw [update_flags_testBit1]
    simp
  · exact update_flags_testBit7 _ _

/-- C1 witness: the spec's example 0x7F + 0x10 + carry 0 → 0x8F with
Overflow and Negative set, Carry and Zero clear, via `claim_C1` at a
concrete state. -/
theorem claim_C1_witness :
    ∃ c', ({ CPU.new.mem_write 0 0x10 with register_a := 0x7F } : CPU).adc
        .Immediate = some c' ∧
      c'.register_a = 0x8F ∧
      (c'.status.testBit 0 = true ↔ (256 ≤ 0x10 + 0 ∨ 256 ≤ 0x7F + 0x10)) ∧
      (c'.status.testBit 6 = true ↔
        ((0x8F ^^^ 0x10) &&& (0x8F ^^^ 0x7F)).testBit 7 = true) ∧
      (c'.status.testBit 1 = true ↔ (0x8F : Nat) = 0) ∧
      (c'.status.testBit 7 = (0x8F : Nat).testBit 7) ∧
      c'.register_x = ({ CPU.new.mem_write 0 0x10 with register_a := 0x7F } : CPU).register_x ∧
      c'.register_y = ({ CPU.new.mem_write 0 0x10 with register_a := 0x7F } : CPU).register_y ∧
      c'.program_counter = ({ CPU.new.mem_write 0 0x10 with register_a := 0x7F } : CPU).program_counter ∧
      c'.memory = ({ CPU.new.mem_write 0 0x10 with register_a := 0x7F } : CPU).memory :=
  claim_C1 { CPU.new.mem_write 0 0x10 with register_a := 0x7F } .Immediate
    0 0x10 0 0x10 0x8F rfl rfl rfl (by decide) (by decide)

/-- C2 (amended): for every address whose successor still fits in 16
bits, `mem_read_u16` returns the little-endian word at `addr`, `addr+1`
and `mem_write_u16` stores the low byte at `addr` and the high byte at
`addr+1`, leaving all other cells alone; at `addr = 0xFFFF` both helpers
fail because the `addr + 1` computation overflows the 16-bit type. -/
theorem claim_C2_amended (c : CPU) (pos data : Nat) (h : pos + 1 < 0x10000) :
    c.mem_read_u16 pos = some (c.mem_read (pos + 1) <<< 8 ||| c.mem_read pos) ∧
    (∃ c', c.mem_write_u16 pos data = some c' ∧
      c'.memory pos = data &&& 0xFF ∧
      c'.memory (pos + 1) = (data >>> 8) % 256 ∧
      (∀ a, a ≠ pos → a ≠ pos + 1 → c'.memory a = c.memory a)) ∧
    c.mem_read_u16 0xFFFF = none ∧
    (∀ d, c.mem_write_u16 0xFFFF d = none) := by
  refine ⟨by simp [CPU.mem_read_u16, h], ?_, rfl, fun d => rfl⟩
  refine ⟨(c.mem_write pos (data &&& 0xFF)).mem_write (pos + 1) ((data >>> 8) % 256),
    by simp [CPU.mem_write_u16, h], ?_, ?_, ?_⟩
  · simp [CPU.mem_write]
  · simp [CPU.mem_write]
  · intro a ha ha1
    simp [CPU.mem_write, ha, ha1]

/-- C2 counterexample: at `addr = 0xFFFF` the 16-bit helpers do fail —
the claim's "no failure anywhere in the 16-bit address space, including
`addr = 0xFFFF`" is false on the code, whose `pos + 1` is an unchecked
`u16` addition. -/
theorem claim_C2_counterexample :
    CPU.new.mem_read_u16 0xFFFF = none ∧
    CPU.new.mem_write_u16 0xFFFF 0x1234 = none :=
  ⟨rfl, rfl⟩

/-- C2 witness: `claim_C2_amended` applied at `pos = 0x1234`,
`data = 0xABCD`. -/
theorem claim_C2_witness :
    CPU.new.mem_read_u16 0x1234 =
      some (CPU.new.mem_read (0x1234 + 1) <<< 8 ||| CPU.new.mem_read 0x1234) ∧
    (∃ c', CPU.new.mem_write_u16 0x1234 0xABCD = some c' ∧
      c'.memory 0x1234 = 0xABCD &&& 0xFF ∧
      c'.memory (0x1234 + 1) = (0xABCD >>> 8) % 256 ∧
      (∀ a, a ≠ 0x1234 → a ≠ 0x1234 + 1 → c'.memory a = CPU.new.memory a)) ∧
    CPU.new.mem_read_u16 0xFFFF = none ∧
    (∀ d, CPU.new.mem_write_u16 0xFFFF d = none) :=
  claim_C2_amended CPU.new 0x1234 0xABCD (by decide)

/-- C3: ZeroPage,X and ZeroPage,Y resolve to
`(byte at counter + index) mod 256`, an 8-bit wrap that stays inside
page zero; concretely, base byte 0xFF with X = 0x02 resolves to 0x01. -/
theorem claim_C3 :
    (∀ c : CPU,
      c.get_operand_address .ZeroPage_X =
        some ((c.mem_read c.program_counter + c.register_x) % 256) ∧
      c.get_operand_address .ZeroPage_Y =
        some ((c.mem_read c.program_counter + c.register_y) % 256) ∧
      (c.mem_read c.program_counter + c.register_x) % 256 < 256 ∧
      (c.mem_read c.program_counter + c.register_y) % 256 < 256) ∧
    ({ CPU.new.mem_write 0 0xFF with register_x := 2 } : CPU).get_operand_address
        .ZeroPage_X = some 0x01 := by
  refine ⟨fun c => ⟨rfl, rfl, ?_, ?_⟩, ?_⟩
  · exact Nat.mod_lt _ (by decide)
  · exact Nat.mod_lt _ (by decide)
  · decide

/-- C4: Indirect,Y reads the pointer byte `p` at the counter, forms the
base word from the bytes at `p` and `(p+1) mod 256` (low byte first) and
adds index-Y with a 16-bit wrap; concretely pointer 0x12 with word
0x3345 at 0x12/0x13 and Y = 0x02 resolves to 0x3347. -/
theorem claim_C4 :
    (∀ c : CPU,
      c.get_operand_address .Indirect_Y =
        some (((c.mem_read ((c.mem_read c.program_counter + 1) % 256) <<< 8 |||
                c.mem_read (c.mem_read c.program_counter)) + c.register_y) % 0x10000)) ∧
    ({ ((CPU.new.mem_write 0 0x12).mem_write 0x12 0x45).mem_write 0x13 0x33 with
        register_y := 2 } : CPU).get_operand_address .Indirect_Y = some 0x3347 :=
  ⟨fun c => rfl, by decide⟩

/-- C5: each dispatch step fetches the opcode byte at the counter,
advances the counter by one, records it, runs the handler, and then
advances the counter by `len - 1` exactly when the handler left it
unchanged; a fetched BRK (0x00) makes the loop return with the status
byte (and every other register) untouched by the BRK step itself. -/
theorem claim_C5 (c : CPU) (op : OpCode) (code : Nat)
    (hcode : code = c.mem_read c.program_counter)
    (hpc : c.program_counter + 1 < 0x10000)
    (hop : OPCODES_MAP code = some op) :
    (code = 0x00 →
      runStep c = .halted { c with program_counter := c.program_counter + 1 }) ∧
    (code ≠ 0x00 →
      ∀ c2, execHandled code op.mode
          { c with program_counter := c.program_counter + 1 } = some (some c2) →
        (c2.program_counter = c.program_counter + 1 →
          c2.program_counter + (op.len - 1) < 0x10000 →
          runStep c = .running { c2 with
            program_counter := c2.program_counter + (op.len - 1) }) ∧
        (c2.program_counter ≠ c.program_counter + 1 →
          runStep c = .running c2)) := by
  subst hcode
  constructor
  · intro h0
    unfold runStep
    rw [if_pos hpc]
    simp only [h0] at hop
    simp only [h0, hop, eq_self_iff_true, if_true]
  · intro hne c2 hexec
    constructor
    · intro hsame hlen
      unfold runStep
      rw [if_pos hpc]
      simp only [hop, if_neg hne, hexec]
      rw [if_pos (show c.program_counter + 1 = c2.program_counter from hsame.symm)]
      rw [if_pos hlen]
    · intro hdiff
      unfold runStep
      rw [if_pos hpc]
      simp only [hop, if_neg hne, hexec]
      rw [if_neg (fun hh => hdiff hh.symm)]

/-- C5 witness: `claim_C5` at a concrete state whose first byte is INX
(0xE8, length 1). -/
theorem claim_C5_witness :
    ((0xE8 : Nat) = 0x00 →
      runStep (CPU.new.mem_write 0 0xE8) = .halted { CPU.new.mem_write 0 0xE8 with
        program_counter := (CPU.new.mem_write 0 0xE8).program_counter + 1 }) ∧
    ((0xE8 : Nat) ≠ 0x00 →
      ∀ c2, execHandled 0xE8 (OpCode.mk 1 .NoneAddressing).mode
          { CPU.new.mem_write 0 0xE8 with
            program_counter := (CPU.new.mem_write 0 0xE8).program_counter + 1 } =
          some (some c2) →
        (c2.program_counter = (CPU.new.mem_write 0 0xE8).program_counter + 1 →
          c2.program_counter + ((OpCode.mk 1 .NoneAddressing).len - 1) < 0x10000 →
          runStep (CPU.new.mem_write 0 0xE8) = .running { c2 with
            program_counter :=
              c2.program_counter + ((OpCode.mk 1 .NoneAddressing).len - 1) }) ∧
        (c2.program_counter ≠ (CPU.new.mem_write 0 0xE8).program_counter + 1 →
          runStep (CPU.new.mem_write 0 0xE8) = .running c2)) :=
  claim_C5 (CPU.new.mem_write 0 0xE8) (OpCode.mk 1 .NoneAddressing) 0xE8
    rfl (by decide) rfl

/-- C6: `update_zero_and_negative_flags v` sets Zero (bit 1) iff
`v = 0`, sets Negative (bit 7) iff bit 7 of `v` is set, and leaves the
six other status bits — Carry (0), InterruptDisable (2), DecimalMode
(3), Break (4), Break2 (5), Overflow (6) — exactly as they were. -/
theorem claim_C6 (c : CPU) (v : Nat) :
    ((c.update_zero_and_negative_flags v).status.testBit 1 = true ↔ v = 0) ∧
    ((c.update_zero_and_negative_flags v).status.testBit 7 = v.testBit 7) ∧
    ((c.update_zero_and_negative_flags v).status.testBit 0 = c.status.testBit 0) ∧
    ((c.update_zero_and_negative_flags v).status.testBit 2 = c.status.testBit 2) ∧
    ((c.update_zero_and_negative_flags v).status.testBit 3 = c.status.testBit 3) ∧
    ((c.update_zero_and_negative_flags v).status.testBit 4 = c.status.testBit 4) ∧
    ((c.update_zero_and_negative_flags v).status.testBit 5 = c.status.testBit 5) ∧
    ((c.update_zero_and_negative_flags v).status.testBit 6 = c.status.testBit 6) := by
  obtain ⟨h1, h2, h3, h4, h5, h6, h7, h8⟩ := update_flags_status_bits c v
  exact ⟨by rw [h1]; simp, h2, h3, h4, h5, h6, h7, h8⟩

/-- C7: `reset` zeroes the accumulator, index-X and the status byte,
loads the program counter from the little-endian word at the reset
vector 0xFFFC/0xFFFD, and leaves index-Y and all of memory unchanged. -/
theorem claim_C7 (c : CPU) :
    c.reset.register_a = 0 ∧ c.reset.register_x = 0 ∧ c.reset.status = 0 ∧
    c.reset.program_counter = c.mem_read 0xFFFD <<< 8 ||| c.mem_read 0xFFFC ∧
    c.reset.register_y = c.register_y ∧ c.reset.memory = c.memory := by
  refine ⟨rfl, rfl, rfl, ?_, rfl, rfl⟩
  simp [CPU.reset, CPU.mem_read_u16]

/-- C8 (amended): `load p` (for `p` fitting in memory) copies `p[i]` to
`0x8000 + i` for every `i < len p` whose target is not a reset-vector
cell, writes `0x8000` little-endian into 0xFFFC/0xFFFD — the vector
write happens after the copy, so on overlap it wins — and leaves every
other memory cell and all registers unchanged. -/
theorem claim_C8_amended (c : CPU) (p : List Nat) (hlen : p.length ≤ 0x8000) :
    ∃ c', c.load p = some c' ∧
      (∀ i, i < p.length → 0x8000 + i ≠ 0xFFFC → 0x8000 + i ≠ 0xFFFD →
        c'.memory (0x8000 + i) = p.getD i 0) ∧
      c'.memory 0xFFFC = 0x00 ∧
      c'.memory 0xFFFD = 0x80 ∧
      (∀ a, a < 0x8000 ∨ (0x8000 + p.length ≤ a ∧ a ≠ 0xFFFC ∧ a ≠ 0xFFFD) →
        c'.memory a = c.memory a) ∧
      c'.register_a = c.register_a ∧ c'.register_x = c.register_x ∧
      c'.register_y = c.register_y ∧ c'.status = c.status ∧
      c'.program_counter = c.program_counter := by
  refine ⟨(({ c with memory := fun a =>
        if 0x8000 ≤ a ∧ a < 0x8000 + p.length then p.getD (a - 0x8000) 0
        else c.memory a } : CPU).mem_write 0xFFFC (0x8000 &&& 0xff)).mem_write
        (0xFFFC + 1) ((0x8000 >>> 8) % 256),
      ?_, ?_, ?_, ?_, ?_, rfl, rfl, rfl, rfl, rfl⟩
  · unfold CPU.load
    rw [if_pos hlen]
    rfl
  · intro i hi h1 h2
    simp only [CPU.mem_write]
    rw [if_neg (by omega : ¬(0x8000 + i = 0xFFFC + 1))]
    rw [if_neg h1]
    rw [if_pos (by omega : 0x8000 ≤ 0x8000 + i ∧ 0x8000 + i < 0x8000 + p.length)]
    rw [Nat.add_sub_cancel_left]
  · simp [CPU.mem_write]
    decide
  · simp [CPU.mem_write]
  · intro a ha
    simp only [CPU.mem_write]
    rcases ha with ha | ⟨ha1, ha2, ha3⟩
    · rw [if_neg (by omega : ¬(a = 0xFFFC + 1))]
      rw [if_neg (by omega : ¬(a = 0xFFFC))]
      rw [if_neg (by omega : ¬(0x8000 ≤ a ∧ a < 0x8000 + p.length))]
    · rw [if_neg (by omega : ¬(a = 0xFFFC + 1))]
      rw [if_neg ha2]
      rw [if_neg (by omega : ¬(0x8000 ≤ a ∧ a < 0x8000 + p.length))]

/-- Index into `List.replicate` below the length yields the repeated
element (used to exhibit the program byte clobbered by `load`). -/
theorem getD_replicate_of_lt (n i x d : Nat) (h : i < n) :
    (List.replicate n x).getD i d = x := by
  induction n generalizing i with
  | zero => omega
  | succ m ih =>
    cases i with
    | zero => simp [List.replicate]
    | succ j =>
      simp only [List.replicate, List.getD_cons_succ]
      exact ih j (by omega)

/-- C8 counterexample: a maximal-size program of 0x8000 bytes all equal
to 1 fits in memory, yet after `load` the cell `0x8000 + 0x7FFC`
(= 0xFFFC) holds 0 — the reset-vector write, performed after the copy,
overwrote `p[0x7FFC] = 1`, so the claim's unconditional
"memory at 0x8000 + i = p[i] for every i < len p" is false. -/
theorem claim_C8_counterexample :
    (CPU.new.load (List.replicate 0x8000 1)).map
        (fun c' => c'.memory (0x8000 + 0x7FFC)) = some 0 ∧
    (List.replicate 0x8000 (1 : Nat)).getD 0x7FFC 0 = 1 := by
  constructor
  · unfold CPU.load
    rw [if_pos (by simp only [List.length_replicate] ; exact Nat.le_refl _ :
      (List.replicate 0x8000 (1 : Nat)).length ≤ 0x8000)]
    simp only [CPU.mem_write_u16, CPU.mem_write, Option.map_some']
    norm_num
    decide
  · exact getD_replicate_of_lt _ _ _ _ (by decide)

/-- C8 witness: `claim_C8_amended` applied to the one-byte program
`[7]`. -/
theorem claim_C8_witness :
    ∃ c', CPU.new.load [7] = some c' ∧
      (∀ i, i < ([7] : List Nat).length → 0x8000 + i ≠ 0xFFFC →
        0x8000 + i ≠ 0xFFFD →
        c'.memory (0x8000 + i) = ([7] : List Nat).getD i 0) ∧
      c'.memory 0xFFFC = 0x00 ∧
      c'.memory 0xFFFD = 0x80 ∧
      (∀ a, a < 0x8000 ∨
          (0x8000 + ([7] : List Nat).length ≤ a ∧ a ≠ 0xFFFC ∧ a ≠ 0xFFFD) →
        c'.memory a = CPU.new.memory a) ∧
      c'.register_a = CPU.new.register_a ∧
      c'.register_x = CPU.new.register_x ∧
      c'.register_y = CPU.new.register_y ∧
      c'.status = CPU.new.status ∧
      c'.program_counter = CPU.new.program_counter :=
  claim_C8_amended CPU.new [7] (by decide)

/-- C9: fetching an opcode byte absent from the metadata table makes the
run loop abort with `unrecognizedOpcode`; the state it aborts in differs
from the pre-step state only by the fetch's counter increment — no
register or memory cell is mutated beyond that point. -/
theorem claim_C9 (fuel : Nat) (c : CPU) (code : Nat)
    (hcode : code = c.mem_read c.program_counter)
    (hpc : c.program_counter + 1 < 0x10000)
    (hop : OPCODES_MAP code = none) :
    run (fuel + 1) c =
      .fatal (.unrecognizedOpcode code)
        { c with program_counter := c.program_counter + 1 } := by
  subst hcode
  have hstep : runStep c =
      .fatal (.unrecognizedOpcode (c.mem_read c.program_counter))
        { c with program_counter := c.program_counter + 1 } := by
    unfold runStep
    rw [if_pos hpc]
    simp only [hop]
  unfold run
  rw [hstep]

/-- C9 witness: `claim_C9` at a state whose first byte is 0xFF, absent
from the table. -/
theorem claim_C9_witness :
    run 1 (CPU.new.mem_write 0 0xFF) =
      .fatal (.unrecognizedOpcode 0xFF)
        { CPU.new.mem_write 0 0xFF with
          program_counter := (CPU.new.mem_write 0 0xFF).program_counter + 1 } :=
  claim_C9 0 (CPU.new.mem_write 0 0xFF) 0xFF rfl (by decide) rfl

/-- C10: `load p` fails exactly when the program is longer than 0x8000
bytes (the slice `0x8000 .. 0x8000 + len p` then exceeds the 64 KiB
store; the range check fires before any byte is copied). -/
theorem claim_C10 (c : CPU) (p : List Nat) :
    c.load p = none ↔ 0x8000 < p.length := by
  unfold CPU.load
  by_cases h : p.length ≤ 0x8000
  · simp [h, CPU.mem_write_u16]
  · simp [h]
    omega

/-- C10 witness: a 0x8001-byte program makes `load` fail. -/
theorem claim_C10_witness :
    CPU.new.load (List.replicate 0x8001 0) = none :=
  (claim_C10 CPU.new (List.replicate 0x8001 0)).mpr
    (by simp only [List.length_replicate]; decide)

end NesCpu
